import Mathlib

/-!
# Verification of the watch-marketplace transfer workflow

Shallow embedding of the ledger data model and the route handlers of
`app/routers/watches.py`, `app/routers/admin.py`, `app/routers/auth.py` and
`app/routers/stellar_contracts.py`.  Monetary amounts are embedded as `Rat`
(the Python source uses literals such as `0.03` and `50000.0`; all the
arithmetic the claims mention is exact on rationals).  The SQLAlchemy session
is embedded as explicit state passing: a handler takes the database state and
returns either an error (every raise in the embedded handlers happens before
any commit, so an error leaves the state unchanged) or the committed state.
Auto-increment primary keys are assigned at flush/commit time, which is why
row ids are `Option Nat` while an object is pending (`db.add` does not flush;
`id` is `None` until the session flushes).

The payment and blockchain adapters (`app/stellar.py`) are not part of the
workflow's logic; each call site is parameterised by the outcome of the call
(return value or raised exception), exactly the information the handlers
branch on.
-/

namespace Marketplace

/-- A row of the `users` table (`app/models.py` `User`), restricted to the
columns the embedded handlers read. -/
structure UserRow where
  id : Nat
  fullName : String
  email : String
  role : String
  stellarPublicKey : Option String
  stellarSecret : Option String
  balanceBrl : Rat
  balanceXlm : Rat
  deriving Repr, DecidableEq

/-- A row of the `stores` table (`admin.py` `create_store`). -/
structure StoreRow where
  id : Nat
  userId : Nat
  name : String
  commissionRate : Rat
  credentialed : Bool
  deriving Repr, DecidableEq

/-- A row of the `evaluators` table (`admin.py` `create_evaluator`). -/
structure EvaluatorRow where
  id : Nat
  userId : Nat
  storeId : Option Nat
  active : Bool
  deriving Repr, DecidableEq

/-- A row of the `watches` table, with the columns read or written by the
handlers in `watches.py`. -/
structure WatchRow where
  id : Nat
  serialNumber : String
  brand : String
  model : String
  year : Option Nat
  condition : Option String
  description : Option String
  purchasePriceBrl : Option Rat
  currentValueBrl : Option Rat
  priceBrl : Option Rat
  currentOwnerUserId : Nat
  status : String
  storeId : Option Nat
  nftCode : Option String
  nftIssuer : Option String
  blockchainAddress : Option String
  imageUrl : Option String
  deriving Repr, DecidableEq

/-- A row of the `ownership_transfers` table, as inserted by `purchase_watch`
(watches.py lines 403-411).  `id` is the auto-increment primary key: `None`
while the object is pending, assigned at flush/commit. -/
structure TransferRow where
  id : Option Nat
  watchId : Nat
  fromUserId : Nat
  toUserId : Nat
  stellarTxHash : String
  type : String
  priceBrl : Rat
  adminFeeBrl : Rat
  deriving Repr, DecidableEq

/-- A row of the `commissions` table, as inserted by `purchase_watch`
(watches.py lines 419-425). -/
structure CommissionRow where
  transactionId : Option Nat
  transactionType : String
  recipientUserId : Nat
  amountBrl : Rat
  description : String
  deriving Repr, DecidableEq

/-- A row of the `escrows` table.  The columns are those read or written in
src/: the shadowed second `purchase_watch` (watches.py lines 553-561) writes
`watch_id, buyer_id, seller_id, amount_brl, status`, and the stellar router
(`stellar_contracts.py` lines 247-256) reads `offer_id, amount_usdc, status,
seller_confirmed, evaluator_confirmed`. -/
structure EscrowRow where
  id : Nat
  watchId : Option Nat
  offerId : Option Nat
  buyerId : Option Nat
  sellerId : Option Nat
  amountBrl : Option Rat
  amountUsdc : Option Rat
  status : String
  sellerConfirmed : Bool
  evaluatorConfirmed : Bool
  deriving Repr, DecidableEq

/-- The ledger store: the tables touched by the embedded handlers, plus the
auto-increment counters.  Query results preserve insertion order, so tables
are lists and `first()` is `List.find?`. -/
structure DB where
  users : List UserRow
  stores : List StoreRow
  evaluators : List EvaluatorRow
  watches : List WatchRow
  transfers : List TransferRow
  commissions : List CommissionRow
  escrows : List EscrowRow
  nextUserId : Nat
  nextStoreId : Nat
  nextEvaluatorId : Nat
  nextWatchId : Nat
  nextTransferId : Nat
  nextEscrowId : Nat
  deriving Repr, DecidableEq

/-- The empty database (fresh ids start at 1, matching SQL autoincrement;
the admin commission recipient in `purchase_watch` is the hard-coded user 1). -/
def DB.empty : DB :=
  { users := [], stores := [], evaluators := [], watches := [],
    transfers := [], commissions := [], escrows := [],
    nextUserId := 1, nextStoreId := 1, nextEvaluatorId := 1,
    nextWatchId := 1, nextTransferId := 1, nextEscrowId := 1 }

/-- Python truthiness of an optional string (`None` and `""` are falsy);
used for the `or` fallbacks and the `if not field` validations. -/
def truthy : Option String → Bool
  | none => false
  | some s => s ≠ ""

/-- watches.py line 359: `price_brl = watch.current_value_brl or 50000.0`.
Python `or` falls through on falsy values (`None` and `0.0`). -/
def resolvePrice (w : WatchRow) : Rat :=
  match w.currentValueBrl with
  | none => 50000
  | some v => if v = 0 then 50000 else v

/-- The body of a `POST /watches/{id}/purchase` request
(`app/schemas.py` `PurchasePayload`, as read by watches.py lines 363-373). -/
structure PurchasePayload where
  paymentMethod : String
  installments : Option Nat
  cardNumber : Option String
  cardName : Option String
  cardExpiry : Option String
  cardCvv : Option String
  cpf : Option String
  deriving Repr, DecidableEq

/-- watches.py lines 366-373: per-method payment validation.  `true` means no
exception is raised by the validation block. -/
def paymentFieldsOk (p : PurchasePayload) : Bool :=
  if p.paymentMethod == "credit_card" then
    (truthy p.cardNumber && truthy p.cardName &&
     truthy p.cardExpiry && truthy p.cardCvv) && truthy p.cpf
  else if p.paymentMethod == "pix" then
    truthy p.cpf
  else
    true

/-- Outcome of the call `simulate_payment_conversion(price, method,
installments)` (watches.py line 375): either the call raises, or it returns a
dict with a `status` and a `tx_hash`. -/
inductive PaymentOutcome where
  | raises
  | returns (status : String) (txHash : String)
  deriving Repr, DecidableEq

/-- Outcome of the call `transfer_nft(asset_code, from_secret, to_public)`
(watches.py lines 390-394): either the call raises (the `except` branch at
lines 395-399 then substitutes a synthetic success), or it returns a dict
with a `status` and `tx_hash`. -/
inductive NftTransferOutcome where
  | raises
  | returns (status : String) (txHash : String)
  deriving Repr, DecidableEq

/-- The errors `purchase_watch` (watches.py lines 337-471) can surface.  Note
that the card/CPF validation `HTTPException(400)`s at lines 366-373 are raised
inside the `try` of lines 362-378 and `HTTPException` is an `Exception`
subclass, so they are caught and re-raised as the 500 at line 378; an
exception raised by the payment call itself lands in the same branch. -/
inductive PurchaseError where
  /-- Gate `require_role(["user"])` failed (403). -/
  | forbidden
  /-- Line 347: 404 "Relógio não disponível para venda". -/
  | watchNotAvailable
  /-- Line 352: 400 "Usuários só podem comprar relógios de lojas credenciadas". -/
  | ownerNotStore
  /-- Line 356: 400 "Você não pode comprar seu próprio relógio". -/
  | selfPurchase
  /-- Line 378: 500 "Erro na simulação de pagamento: ..." (wraps the
  validation 400s and any exception from the payment call). -/
  | paymentSimError
  /-- Line 386: 404 "Usuário não encontrado". -/
  | userNotFound
  /-- Line 471: 400 "Falha no pagamento". -/
  | paymentFailed
  deriving Repr, DecidableEq

/-- The owner/status write of a successful purchase (watches.py lines
414-416), as a per-row update: the purchased watch row gets
`current_owner_user_id := buyer` and `status := "sold"`. -/
def soldUpdate (watchIdSold buyerId : Nat) (x : WatchRow) : WatchRow :=
  if x.id == watchIdSold then
    { x with currentOwnerUserId := buyerId, status := "sold" }
  else x

/-- The atomic commit of a successful purchase (watches.py lines 401-428):
insert the OwnershipTransfer (lines 403-412), update the watch's owner and
status (lines 414-416), insert the Commission (lines 418-426), then the
handler's single `db.commit()` (line 428).  Line 420 reads `transfer.id` for
the commission's `transaction_id` while the transfer is merely added, not
flushed, so the captured value is `None`; the transfer's own primary key is
assigned from the sequence at commit. -/
def purchaseCommit (db : DB) (watch : WatchRow) (buyerId : Nat)
    (txHash : String) : DB :=
  let priceBrl := resolvePrice watch
  let transfer : TransferRow :=
    { id := none
      watchId := watch.id
      fromUserId := watch.currentOwnerUserId
      toUserId := buyerId
      stellarTxHash := txHash
      type := "sale"
      priceBrl := priceBrl
      adminFeeBrl := priceBrl * (3 / 100) }
  let commission : CommissionRow :=
    { transactionId := transfer.id
      transactionType := "sale"
      recipientUserId := 1
      amountBrl := priceBrl * (3 / 100)
      description := "Comissão da venda do relógio " ++ watch.brand
                       ++ " " ++ watch.model }
  { db with
    watches := db.watches.map (soldUpdate watch.id buyerId)
    transfers := db.transfers ++ [{ transfer with id := some db.nextTransferId }]
    commissions := db.commissions ++ [commission]
    nextTransferId := db.nextTransferId + 1 }

/-- Handler `purchase_watch`, watches.py lines 337-471 — the first of the two handlers
registered at `POST /watches/{watch_id}/purchase`; Starlette dispatches a
request to the first registered full match, so this is the handler that
serves the route (the second definition at lines 537-577 is shadowed, see
`purchase_watch_escrow`).  `callerId`/`callerRole` are the JWT `sub`/`role`
checked by `require_role(["user"])`; `pay` and `nft` are the outcomes of the
two adapter calls.  The single `db.commit()` of the handler is at line 428,
after every raise, so an error leaves the database unchanged. -/
def purchase_watch (callerId : Nat) (callerRole : String) (watchId : Nat)
    (p : PurchasePayload) (pay : PaymentOutcome) (nft : NftTransferOutcome)
    (db : DB) : Except PurchaseError DB :=
  if callerRole ≠ "user" then .error .forbidden else
  -- line 345: db.query(Watch).filter(Watch.id == watch_id, Watch.status == "for_sale").first()
  match db.watches.find? (fun w => w.id == watchId && w.status == "for_sale") with
  | none => .error .watchNotAvailable
  | some watch =>
    -- lines 350-352: owner must exist and have role "store"
    match db.users.find? (fun u => u.id == watch.currentOwnerUserId) with
    | none => .error .ownerNotStore
    | some owner =>
      if owner.role ≠ "store" then .error .ownerNotStore
      else if watch.currentOwnerUserId == callerId then .error .selfPurchase
      else
        -- line 359: the resolved price, passed to the payment adapter call
        -- (whose behaviour here is the oracle `pay`) and recomputed in
        -- `purchaseCommit`.
        let _priceBrl := resolvePrice watch
        if ¬ paymentFieldsOk p then .error .paymentSimError
        else
          match pay with
          | .raises => .error .paymentSimError
          | .returns payStatus _payTx =>
            if payStatus == "success" then
              -- lines 382-386: buyer and seller lookups
              match db.users.find? (fun u => u.id == callerId),
                    db.users.find? (fun u => u.id == watch.currentOwnerUserId) with
              | some _buyer, some _seller =>
                -- lines 389-399: transfer_nft, with synthetic fallback on raise
                let transferResult : String × String :=
                  match nft with
                  | .returns s h => (s, h)
                  | .raises =>
                      ("success",
                       "simulated_transfer_" ++ toString watch.id ++ "_" ++ toString callerId)
                if transferResult.1 == "success" then
                  .ok (purchaseCommit db watch callerId transferResult.2)
                else
                  -- transfer_nft returned a non-success dict: control falls
                  -- through to line 471.
                  .error .paymentFailed
              | _, _ => .error .userNotFound
            else .error .paymentFailed

/-- Errors of `tokenize_watch` (watches.py lines 94-173). -/
inductive TokenizeError where
  /-- Gate `require_role(["evaluator"])` failed (403). -/
  | forbidden
  /-- Line 105: 404 "Relógio não encontrado". -/
  | watchNotFound
  /-- Line 108: `NameError: name 'Evaluator' is not defined`, surfaced by
  FastAPI as an unhandled 500. -/
  | nameErrorEvaluator
  deriving Repr, DecidableEq

/-- Handler `tokenize_watch`, watches.py lines 94-173.  The module-scope import at
line 10 brings in `Watch, User, OwnershipTransfer, Notification, Commission,
Store` but not `Evaluator`; `Evaluator` is imported only locally inside
`create_watch` (line 43).  Hence the reference `Evaluator` at line 108 raises
`NameError` whenever it executes, i.e. on every call that passes the role
gate and finds the watch.  Everything after line 108 — the credential 403,
the already-tokenized 400 at lines 113-114, the Stellar call and the
`tokenized`/`nft_error`/`nft_failed` status writes — is unreachable, and no
commit precedes line 108, so the database is never modified. -/
def tokenize_watch (callerRole : String) (watchId : Nat) (db : DB) :
    Except TokenizeError DB :=
  if callerRole ≠ "evaluator" then .error .forbidden else
  match db.watches.find? (fun w => w.id == watchId) with
  | none => .error .watchNotFound
  | some _watch => .error .nameErrorEvaluator

/-- The state after a tokenize request (always unchanged, see
`tokenize_watch`). -/
def tokenizeStep (callerRole : String) (watchId : Nat) (db : DB) : DB :=
  match tokenize_watch callerRole watchId db with
  | .ok db1 => db1
  | .error _ => db

/-- The body of `POST /watches/` (`app/schemas.py` `WatchCreate`). -/
structure WatchCreate where
  serialNumber : String
  brand : String
  model : String
  year : Option Nat
  condition : Option String
  description : Option String
  purchasePriceBrl : Option Rat
  currentValueBrl : Option Rat
  deriving Repr, DecidableEq

/-- Errors of `create_watch` (watches.py lines 17-92). -/
inductive CreateWatchError where
  | forbidden
  /-- Line 26: 400 "Número de série já cadastrado". -/
  | serialExists
  deriving Repr, DecidableEq

/-- Python truthiness of an optional integer (`None` and `0` are falsy);
watches.py line 45 `if evaluator and evaluator.store_id`. -/
def natTruthy : Option Nat → Bool
  | none => false
  | some n => n ≠ 0

/-- Handler `create_watch`, watches.py lines 17-92.  Admin-created watches start
`registered`; evaluator-created watches start `for_sale`, and when the
evaluator is linked to a store the watch is owned by the store's user and
carries the store id (lines 28-51). -/
def create_watch (callerId : Nat) (callerRole : String) (w : WatchCreate)
    (db : DB) : Except CreateWatchError DB :=
  if callerRole ≠ "admin" ∧ callerRole ≠ "evaluator" then .error .forbidden else
  if (db.watches.find? (fun x => x.serialNumber == w.serialNumber)).isSome then
    .error .serialExists
  else
    let initialStatus : String :=
      if callerRole == "admin" then "registered"
      else if callerRole == "evaluator" then "for_sale"
      else "registered"
    let ownerAndStore : Nat × Option Nat :=
      if callerRole == "evaluator" then
        match db.evaluators.find? (fun e => e.userId == callerId) with
        | none => (callerId, none)
        | some ev =>
          if natTruthy ev.storeId then
            let sid := ev.storeId.getD 0
            match db.stores.find? (fun s => s.id == sid) with
            | some store => (store.userId, some sid)
            | none => (callerId, some sid)
          else (callerId, none)
      else (callerId, none)
    .ok { db with
          watches := db.watches ++
            [{ id := db.nextWatchId
               serialNumber := w.serialNumber
               brand := w.brand
               model := w.model
               year := w.year
               condition := w.condition
               description := w.description
               purchasePriceBrl := w.purchasePriceBrl
               currentValueBrl := w.currentValueBrl
               priceBrl := none
               currentOwnerUserId := ownerAndStore.1
               status := initialStatus
               storeId := ownerAndStore.2
               nftCode := none
               nftIssuer := none
               blockchainAddress := none
               imageUrl := none }]
          nextWatchId := db.nextWatchId + 1 }

/-- Outcome of the call `create_nft_asset(...)` (watches.py line 226):
either it raises, or it returns a dict with `status`, `asset_code`,
`issuer`. -/
inductive NftCreateOutcome where
  | raises
  | returns (status : String) (assetCode : String) (issuer : String)
  deriving Repr, DecidableEq

/-- Errors of `create_watch_with_image` (watches.py lines 175-248). -/
inductive UploadError where
  | forbidden
  /-- Line 188: 403 "Não autorizado". -/
  | notOwner
  /-- Line 193: 400 "Número de série já cadastrado". -/
  | serialExists
  /-- Line 231: the owner user row is missing, so
  `user.stellar_public_key` raises `AttributeError` (500) — after the watch
  was already committed at line 219. -/
  | ownerUserMissing
  /-- Call `create_nft_asset` raised; unhandled (500), watch already committed. -/
  | nftRaised
  deriving Repr, DecidableEq

/-- The NFT-fields write of `create_watch_with_image` (watches.py lines
235-236): only `nft_code` and `nft_issuer` are set. -/
def nftFieldsUpdate (i : Nat) (code issuer : String) (x : WatchRow) :
    WatchRow :=
  if x.id == i then { x with nftCode := some code, nftIssuer := some issuer }
  else x

/-- Handler `create_watch_with_image`, watches.py lines 175-248.  The watch row is
committed at line 219 before the NFT creation, so the two post-commit
failure modes leave the watch in the database; on NFT success only
`nft_code` and `nft_issuer` are set (lines 234-237), the status stays
`registered`. -/
def create_watch_with_image (callerId : Nat) (callerRole : String)
    (serial brand model description : String) (ownerParam : Nat)
    (imageUrl : String) (nftC : NftCreateOutcome) (db : DB) :
    DB × Option UploadError :=
  if callerRole ≠ "admin" ∧ callerRole ≠ "user" then (db, some .forbidden) else
  if callerRole ≠ "admin" ∧ callerId ≠ ownerParam then (db, some .notOwner) else
  if (db.watches.find? (fun x => x.serialNumber == serial)).isSome then
    (db, some .serialExists)
  else
    let newWatch : WatchRow :=
      { id := db.nextWatchId
        serialNumber := serial
        brand := brand
        model := model
        year := none
        condition := none
        description := some description
        purchasePriceBrl := none
        currentValueBrl := none
        priceBrl := none
        currentOwnerUserId := ownerParam
        status := "registered"
        storeId := none
        nftCode := none
        nftIssuer := none
        blockchainAddress := none
        imageUrl := some imageUrl }
    let db1 : DB :=
      { db with watches := db.watches ++ [newWatch],
                nextWatchId := db.nextWatchId + 1 }
    match db1.users.find? (fun u => u.id == ownerParam) with
    | none => (db1, some .ownerUserMissing)
    | some _user =>
      match nftC with
      | .raises => (db1, some .nftRaised)
      | .returns st code issuer =>
        if st == "success" then
          ({ db1 with
             watches := db1.watches.map (nftFieldsUpdate newWatch.id code issuer) },
           none)
        else (db1, none)

/-- Errors of `list_for_sale` (watches.py lines 311-335). -/
inductive ListForSaleError where
  | forbidden
  /-- Line 320: caller row missing, `user.role` raises `AttributeError`
  (500). -/
  | callerMissing
  /-- Line 321: 403 "Apenas lojas podem listar relógios...". -/
  | notStoreRole
  /-- Line 329: 404 "Relógio não encontrado ou você não é o proprietário". -/
  | watchNotFoundOrNotOwner
  deriving Repr, DecidableEq

/-- The status write of `list_for_sale` (watches.py line 332). -/
def forSaleUpdate (i : Nat) (x : WatchRow) : WatchRow :=
  if x.id == i then { x with status := "for_sale" } else x

/-- Handler `list_for_sale`, watches.py lines 311-335: a store lists its own watch;
only the status is written (the listing price is echoed back, not stored). -/
def list_for_sale (callerId : Nat) (callerRole : String) (watchId : Nat)
    (db : DB) : Except ListForSaleError DB :=
  if callerRole ≠ "store" then .error .forbidden else
  match db.users.find? (fun u => u.id == callerId) with
  | none => .error .callerMissing
  | some user =>
    if user.role ≠ "store" then .error .notStoreRole else
    match db.watches.find?
        (fun w => w.id == watchId && w.currentOwnerUserId == callerId) with
    | none => .error .watchNotFoundOrNotOwner
    | some watch =>
      .ok { db with watches := db.watches.map (forSaleUpdate watch.id) }

/-- Errors of `put_watch_for_sale` (watches.py lines 494-535). -/
inductive SellError where
  | forbidden
  /-- Line 509: 404 "Loja não encontrada". -/
  | storeNotFound
  /-- Line 521: 404 "Relógio não encontrado ou não autorizado". -/
  | watchNotFound
  deriving Repr, DecidableEq

/-- The status/price write of `put_watch_for_sale` (watches.py lines
524-525). -/
def forSalePriceUpdate (i : Nat) (np : Option Rat) (x : WatchRow) :
    WatchRow :=
  if x.id == i then { x with status := "for_sale", priceBrl := np } else x

/-- Handler `put_watch_for_sale`, watches.py lines 494-535.  A store may list a watch
of its own store; an admin may list any watch (no status precondition in
either branch).  Writes `status := "for_sale"` and
`price_brl := sale_data.get("price_brl", watch.current_value_brl)`. -/
def put_watch_for_sale (callerId : Nat) (callerRole : String) (watchId : Nat)
    (priceParam : Option Rat) (db : DB) : Except SellError DB :=
  if callerRole ≠ "store" ∧ callerRole ≠ "admin" then .error .forbidden else
  let found : Except SellError WatchRow :=
    if callerRole == "store" then
      match db.stores.find? (fun s => s.userId == callerId) with
      | none => .error .storeNotFound
      | some store =>
        match db.watches.find?
            (fun w => w.id == watchId && w.storeId == some store.id) with
        | none => .error .watchNotFound
        | some w => .ok w
    else
      match db.watches.find? (fun w => w.id == watchId) with
      | none => .error .watchNotFound
      | some w => .ok w
  match found with
  | .error e => .error e
  | .ok watch =>
    let newPrice : Option Rat :=
      match priceParam with
      | some p => some p
      | none => watch.currentValueBrl
    .ok { db with
          watches := db.watches.map (forSalePriceUpdate watch.id newPrice) }

/-- Errors of `register` (routers/auth.py lines 12-35). -/
inductive RegisterError where
  /-- Line 16: 400 "Email já cadastrado". -/
  | emailExists
  deriving Repr, DecidableEq

/-- Handler `register`, routers/auth.py lines 12-35.  The role is taken from the
request body; a fresh Stellar keypair (parameters `pub`/`sec`) is attached.
Balances default to 0 (see the `balance_brl == 0` checks in
`get_user_profile`). -/
def register (fullName email role pub sec : String) (db : DB) :
    Except RegisterError DB :=
  if (db.users.find? (fun u => u.email == email)).isSome then
    .error .emailExists
  else
    .ok { db with
          users := db.users ++
            [{ id := db.nextUserId, fullName := fullName, email := email,
               role := role, stellarPublicKey := some pub,
               stellarSecret := some sec, balanceBrl := 0, balanceXlm := 0 }]
          nextUserId := db.nextUserId + 1 }

/-- The lazy balance write of `get_user_profile` (routers/auth.py lines
92-111): the caller's row gets simulated balances the first time it is read
with a zero BRL balance; the role is never written. -/
def profileBalanceUpdate (callerId : Nat) (u : UserRow) : UserRow :=
  if u.id == callerId then
    if u.balanceBrl = 0 ∧ u.role = "store" then
      { u with balanceBrl := 15000, balanceXlm := 2.5 }
    else if u.balanceBrl = 0 ∧ u.role = "evaluator" then
      { u with balanceBrl := 8500, balanceXlm := 1.2 }
    else if u.balanceBrl = 0 ∧ u.role = "user" then
      { u with balanceBrl := 25000, balanceXlm := 3.8 }
    else if u.balanceBrl = 0 ∧ u.role = "admin" then
      { u with balanceBrl := 50000, balanceXlm := 7.5 }
    else u
  else u

/-- Handler `get_user_profile`, routers/auth.py lines 67-129: a read endpoint that
nonetheless commits `profileBalanceUpdate` on the caller's row (line 111). -/
def get_user_profile (callerId : Nat) (db : DB) : DB :=
  { db with users := db.users.map (profileBalanceUpdate callerId) }

/-- The body of `POST /admin/stores` (`app/schemas.py` `StoreCreate`). -/
structure StoreCreate where
  userId : Nat
  name : String
  commissionRate : Rat
  deriving Repr, DecidableEq

/-- Errors of `create_store` (admin.py lines 12-39). -/
inductive CreateStoreError where
  | forbidden
  /-- Line 21: 404 "Usuário não encontrado ou não é uma loja". -/
  | userNotFoundOrNotStore
  /-- Line 26: 400 "Usuário já possui uma loja cadastrada". -/
  | storeExists
  deriving Repr, DecidableEq

/-- Handler `create_store`, admin.py lines 12-39. -/
def create_store (callerRole : String) (payload : StoreCreate) (db : DB) :
    Except CreateStoreError DB :=
  if callerRole ≠ "admin" then .error .forbidden else
  match db.users.find?
      (fun u => u.id == payload.userId && u.role == "store") with
  | none => .error .userNotFoundOrNotStore
  | some _user =>
    if (db.stores.find? (fun s => s.userId == payload.userId)).isSome then
      .error .storeExists
    else
      .ok { db with
            stores := db.stores ++
              [{ id := db.nextStoreId, userId := payload.userId,
                 name := payload.name,
                 commissionRate := payload.commissionRate,
                 credentialed := true }]
            nextStoreId := db.nextStoreId + 1 }

/-- The body of `POST /admin/evaluators` (`app/schemas.py`
`EvaluatorCreate`). -/
structure EvaluatorCreate where
  userId : Nat
  storeId : Nat
  deriving Repr, DecidableEq

/-- Errors of `create_evaluator` (admin.py lines 64-86). -/
inductive CreateEvaluatorError where
  | forbidden
  /-- Line 73: 404 "Usuário não encontrado ou não é um avaliador". -/
  | userNotFoundOrNotEvaluator
  /-- Line 78: 404 "Loja não encontrada". -/
  | storeNotFound
  deriving Repr, DecidableEq

/-- Handler `create_evaluator`, admin.py lines 64-86. -/
def create_evaluator (callerRole : String) (payload : EvaluatorCreate)
    (db : DB) : Except CreateEvaluatorError DB :=
  if callerRole ≠ "admin" then .error .forbidden else
  match db.users.find?
      (fun u => u.id == payload.userId && u.role == "evaluator") with
  | none => .error .userNotFoundOrNotEvaluator
  | some _user =>
    match db.stores.find? (fun s => s.id == payload.storeId) with
    | none => .error .storeNotFound
    | some _store =>
      .ok { db with
            evaluators := db.evaluators ++
              [{ id := db.nextEvaluatorId, userId := payload.userId,
                 storeId := some payload.storeId, active := true }]
            nextEvaluatorId := db.nextEvaluatorId + 1 }

/-- Errors of the second `purchase_watch` definition (watches.py lines
537-577). -/
inductive PurchaseEscrowError where
  | forbidden
  /-- Line 551: 404 "Relógio não encontrado ou não disponível". -/
  | watchNotAvailable
  deriving Repr, DecidableEq

/-- The SECOND handler defined for `POST /watches/{watch_id}/purchase`
(watches.py lines 537-577).  FastAPI registers both handlers on the router,
and Starlette dispatches each request to the first registered full match, so
this handler is shadowed by the one at lines 337-471 and is never invoked
over HTTP; it is embedded here for completeness.  It would create a pending
`Escrow` and set the watch to `sold` without creating any
`OwnershipTransfer` row. -/
def purchase_watch_escrow (callerId : Nat) (callerRole : String)
    (watchId : Nat) (db : DB) : Except PurchaseEscrowError DB :=
  if callerRole ≠ "user" then .error .forbidden else
  match db.watches.find? (fun w => w.id == watchId && w.status == "for_sale") with
  | none => .error .watchNotAvailable
  | some watch =>
    .ok { db with
          escrows := db.escrows ++
            [{ id := db.nextEscrowId, watchId := some watchId,
               offerId := none, buyerId := some callerId,
               sellerId := some watch.currentOwnerUserId,
               amountBrl := watch.priceBrl, amountUsdc := none,
               status := "pending", sellerConfirmed := false,
               evaluatorConfirmed := false }]
          nextEscrowId := db.nextEscrowId + 1
          watches := db.watches.map fun x =>
            if x.id == watch.id then { x with status := "sold" } else x }

/-- Modelled from the spec: recording one party's confirmation (part of the
escrow contract of `app/stellar_contracts.py`, which is not under src/).  The
named confirmer's flag is set; an unknown confirmer type sets nothing. -/
def confirmFlagsUpdate (confirmerType : String) (e : EscrowRow) : EscrowRow :=
  if confirmerType == "seller" then { e with sellerConfirmed := true }
  else if confirmerType == "evaluator" then { e with evaluatorConfirmed := true }
  else e

/-- Modelled from the spec: the escrow contract class lives in
`app/stellar_contracts.py`, which is not under src/ (only its caller,
`src/app/routers/stellar_contracts.py`, is).  Per the spec — "Escrow …
status ∈ (pending, released, disputed), seller-confirmed flag,
evaluator-confirmed flag.  Invariant: release only when both confirmation
flags are true", "States: pending → (seller_confirmed ∧ evaluator_confirmed)
→ released.  No transition out of released" — `confirm_delivery` records the
named confirmer's flag and moves a pending escrow to `released` exactly when
both flags are then true; a non-pending escrow is left unchanged. -/
def escrowConfirmDelivery (confirmerType : String) (e : EscrowRow) :
    EscrowRow :=
  if e.status ≠ "pending" then e
  else
    let e1 := confirmFlagsUpdate confirmerType e
    if e1.sellerConfirmed && e1.evaluatorConfirmed then
      { e1 with status := "released" }
    else e1

/-- Errors of the `confirm_delivery` route (stellar_contracts.py lines
195-226). -/
inductive ConfirmDeliveryError where
  /-- Line 211: the 403 for other roles — raised inside the `try` of lines
  204-222, so it is caught by `except Exception` and surfaced as the 500 of
  line 223. -/
  | confirmerRoleError
  deriving Repr, DecidableEq

/-- Handler `confirm_delivery`, stellar_contracts.py lines 195-226: maps the caller
role to a confirmer type (`user` → `seller`, `evaluator` → `evaluator`,
anything else fails) and delegates to the escrow contract
(`escrowConfirmDelivery`, modelled from the spec). -/
def confirm_delivery (callerRole : String) (e : EscrowRow) :
    Except ConfirmDeliveryError EscrowRow :=
  if callerRole == "user" then .ok (escrowConfirmDelivery "seller" e)
  else if callerRole == "evaluator" then
    .ok (escrowConfirmDelivery "evaluator" e)
  else .error .confirmerRoleError

/-- The state after a purchase request: the committed state on success, the
unchanged state when the handler raises. -/
def purchaseStep (callerId : Nat) (callerRole : String) (watchId : Nat)
    (p : PurchasePayload) (pay : PaymentOutcome) (nft : NftTransferOutcome)
    (db : DB) : DB :=
  match purchase_watch callerId callerRole watchId p pay nft db with
  | .ok db1 => db1
  | .error _ => db

/-- The JWT role of a logged-in caller.  `login` (routers/auth.py lines
37-58) copies the user's role column into the token, and no handler ever
writes that column, so the token role always matches the row; an id with no
row cannot log in, and the empty string passes no `require_role` gate. -/
def roleOf (db : DB) (callerId : Nat) : String :=
  match db.users.find? (fun u => u.id == callerId) with
  | some u => u.role
  | none => ""

/-- A request to one of the public operations under src/ that write the
ledger tables (routers `auth`, `admin`, `watches`, plus the escrow
confirmation whose contract is modelled from the spec).  The remaining
endpoints of src/ are read-only, and the stellar-router registration and
NFT-transfer endpoints delegate their writes to `app/stellar_contracts.py`,
which is not under src/. -/
inductive Op where
  | register (fullName email role pub sec : String)
  | profileRead (callerId : Nat)
  | createStore (callerId : Nat) (payload : StoreCreate)
  | createEvaluator (callerId : Nat) (payload : EvaluatorCreate)
  | createWatch (callerId : Nat) (w : WatchCreate)
  | uploadWatch (callerId : Nat) (serial brand model description : String)
      (ownerParam : Nat) (imageUrl : String) (nftC : NftCreateOutcome)
  | listForSale (callerId : Nat) (watchId : Nat)
  | sellWatch (callerId : Nat) (watchId : Nat) (priceParam : Option Rat)
  | purchase (callerId : Nat) (watchId : Nat) (p : PurchasePayload)
      (pay : PaymentOutcome) (nft : NftTransferOutcome)
  | tokenize (callerId : Nat) (watchId : Nat)
  | confirmDelivery (callerId : Nat) (escrowId : Nat)

/-- One public request against the ledger: the handler's committed state on
success, the unchanged state when it raises.  `POST
/watches/{watch_id}/purchase` dispatches to the first registered handler
(`purchase_watch`); the shadowed `purchase_watch_escrow` is unreachable. -/
def step (db : DB) (op : Op) : DB :=
  match op with
  | .register f e r pk sk =>
    match register f e r pk sk db with
    | .ok d => d
    | .error _ => db
  | .profileRead c => get_user_profile c db
  | .createStore c pl =>
    match create_store (roleOf db c) pl db with
    | .ok d => d
    | .error _ => db
  | .createEvaluator c pl =>
    match create_evaluator (roleOf db c) pl db with
    | .ok d => d
    | .error _ => db
  | .createWatch c w =>
    match create_watch c (roleOf db c) w db with
    | .ok d => d
    | .error _ => db
  | .uploadWatch c s b m de o i n =>
    (create_watch_with_image c (roleOf db c) s b m de o i n db).1
  | .listForSale c w =>
    match list_for_sale c (roleOf db c) w db with
    | .ok d => d
    | .error _ => db
  | .sellWatch c w pr =>
    match put_watch_for_sale c (roleOf db c) w pr db with
    | .ok d => d
    | .error _ => db
  | .purchase c w p pay nft => purchaseStep c (roleOf db c) w p pay nft db
  | .tokenize c w => tokenizeStep (roleOf db c) w db
  | .confirmDelivery c eid =>
    let role := roleOf db c
    if role == "user" ∨ role == "evaluator" then
      let ct := if role == "user" then "seller" else "evaluator"
      { db with escrows := db.escrows.map fun e =>
          if e.id == eid then escrowConfirmDelivery ct e else e }
    else db

/-- The states reachable from the empty database through the public
operations. -/
inductive Reachable : DB → Prop where
  | init : Reachable DB.empty
  | next (db : DB) (op : Op) : Reachable db → Reachable (step db op)

/-- The number of OwnershipTransfer rows of type `sale` that reference the
watch id `wid`. -/
def saleCount (ts : List TransferRow) (wid : Nat) : Nat :=
  (ts.filter fun t => t.watchId == wid && t.type == "sale").length

/-- The ledger invariant maintained by every public operation.  Beyond the
claimed sold-watch property it carries the facts the induction needs: fresh
watch ids, transfers referencing only allocated watch ids, and — since a
completed purchase hands the watch to a role-`user` buyer and roles are
immutable — the owner of any watch with a sale transfer has role `user`
(which is what makes a second sale of the same watch impossible: the owner
can no longer pass the `store` check). -/
structure LedgerInv (db : DB) : Prop where
  watchIdsBounded : ∀ w ∈ db.watches, w.id < db.nextWatchId
  transferRefsBounded : ∀ t ∈ db.transfers, t.watchId < db.nextWatchId
  saleCountLe : ∀ w ∈ db.watches, saleCount db.transfers w.id ≤ 1
  ownerRoleUser : ∀ w ∈ db.watches, 1 ≤ saleCount db.transfers w.id →
    ∃ u, db.users.find? (fun x => x.id == w.currentOwnerUserId) = some u ∧
      u.role = "user"
  soldHasOne : ∀ w ∈ db.watches, w.status = "sold" →
    saleCount db.transfers w.id = 1

/-- Whether a handler call raised (any error). -/
def isError {ε α : Type} : Except ε α → Bool
  | .error _ => true
  | .ok _ => false

/-- The error taxonomy of spec §7 (a spec-side vocabulary, used to compare
the code's errors against the spec's words). -/
inductive SpecErrorKind where
  | notFound
  | policyViolation
  | invalidRequest
  | adapterFailure
  | conflictState
  deriving Repr, DecidableEq

/-- The taxonomy kind of each `purchase_watch` error, following the spec's
own correspondence (§4.1: "watch not found or not for sale → not-found
error; owner-role mismatch → policy error; payment validation failure →
invalid-request error; payment adapter decline → payment-failed error").
The 404 of line 347 is one error covering both the missing watch and the
wrong status. -/
def purchaseErrorKind : PurchaseError → SpecErrorKind
  | .forbidden => .policyViolation
  | .watchNotAvailable => .notFound
  | .ownerNotStore => .policyViolation
  | .selfPurchase => .policyViolation
  | .paymentSimError => .invalidRequest
  | .userNotFound => .notFound
  | .paymentFailed => .adapterFailure

/-- A sequence of public requests. -/
def stepAll (db : DB) (ops : List Op) : DB :=
  ops.foldl step db

/-! ### Concrete states used by the witnesses -/

def testStore : UserRow :=
  { id := 1, fullName := "Loja", email := "loja@x.com", role := "store",
    stellarPublicKey := some "G1", stellarSecret := some "S1",
    balanceBrl := 0, balanceXlm := 0 }

def testBuyer : UserRow :=
  { id := 2, fullName := "Comprador", email := "compr@x.com", role := "user",
    stellarPublicKey := some "G2", stellarSecret := some "S2",
    balanceBrl := 0, balanceXlm := 0 }

def testWatch : WatchRow :=
  { id := 10, serialNumber := "SN1", brand := "Rolex", model := "Submariner",
    year := none, condition := none, description := none,
    purchasePriceBrl := none, currentValueBrl := some 100000,
    priceBrl := none, currentOwnerUserId := 1, status := "for_sale",
    storeId := none, nftCode := some "NFT10", nftIssuer := none,
    blockchainAddress := none, imageUrl := none }

def testDB : DB :=
  { users := [testStore, testBuyer], stores := [], evaluators := [],
    watches := [testWatch], transfers := [], commissions := [], escrows := [],
    nextUserId := 3, nextStoreId := 1, nextEvaluatorId := 1,
    nextWatchId := 11, nextTransferId := 1, nextEscrowId := 1 }

def pixPayload : PurchasePayload :=
  { paymentMethod := "pix", installments := some 1, cardNumber := none,
    cardName := none, cardExpiry := none, cardCvv := none,
    cpf := some "12345678900" }

/-- State `testDB` with the watch already sold (not `for_sale`). -/
def testDBsold : DB :=
  { testDB with watches := [{ testWatch with status := "sold" }] }

/-- State `testDB` with the buyer owning the listed watch (self-purchase setup). -/
def testDBself : DB :=
  { testDB with watches := [{ testWatch with currentOwnerUserId := 2 }] }

/-- State `testDB` with the watch already tokenized. -/
def testWatchTokenized : WatchRow :=
  { testWatch with status := "tokenized", nftIssuer := some "ISSUER" }

def testDBtokenized : DB :=
  { testDB with watches := [testWatchTokenized] }

/-- A pending escrow with one confirmation already recorded. -/
def escrowSellerConfirmed : EscrowRow :=
  { id := 1, watchId := some 10, offerId := none, buyerId := some 2,
    sellerId := some 1, amountBrl := some 100000, amountUsdc := none,
    status := "pending", sellerConfirmed := true, evaluatorConfirmed := false }

/-- A request sequence that runs a complete sale from the empty database:
register a store user, an evaluator, an admin and a buyer; the admin
registers the store and links the evaluator to it; the evaluator creates a
watch (owned by the store, listed `for_sale`); the buyer purchases it via
pix with both adapters succeeding. -/
def scenarioStorePayload : StoreCreate :=
  { userId := 1, name := "Loja", commissionRate := 0 }

def scenarioEvaluatorPayload : EvaluatorCreate :=
  { userId := 2, storeId := 1 }

def scenarioWatchPayload : WatchCreate :=
  { serialNumber := "SN-001", brand := "Rolex", model := "Submariner",
    year := none, condition := none, description := none,
    purchasePriceBrl := none, currentValueBrl := some 95000 }

def saleScenarioOps : List Op :=
  [ .register "Loja" "loja@x.com" "store" "GS1" "SS1",
    .register "Avaliador" "aval@x.com" "evaluator" "GS2" "SS2",
    .register "Admin" "admin@x.com" "admin" "GS3" "SS3",
    .register "Comprador" "compr@x.com" "user" "GS4" "SS4",
    .createStore 3 scenarioStorePayload,
    .createEvaluator 3 scenarioEvaluatorPayload,
    .createWatch 2 scenarioWatchPayload,
    .purchase 4 1 pixPayload (.returns "success" "payhash")
      (.returns "success" "nfthash") ]

/-- The state after `saleScenarioOps`. -/
def saleScenarioDB : DB :=
  stepAll DB.empty saleScenarioOps

/-- The sold watch row of `saleScenarioDB`. -/
def saleScenarioWatch : WatchRow :=
  { id := 1, serialNumber := "SN-001", brand := "Rolex",
    model := "Submariner", year := none, condition := none,
    description := none, purchasePriceBrl := none,
    currentValueBrl := some 95000, priceBrl := none,
    currentOwnerUserId := 4, status := "sold", storeId := some 1,
    nftCode := none, nftIssuer := none, blockchainAddress := none,
    imageUrl := none }

end Marketplace



namespace Marketplace

theorem find?_append_some {α : Type} {p : α → Bool} {l1 : List α}
    (l2 : List α) {a : α} (h : l1.find? p = some a) :
    (l1 ++ l2).find? p = some a := by
  induction l1 with
  | nil => simp [List.find?] at h
  | cons x xs ih =>
    rw [List.cons_append]
    cases hpx : p x with
    | true =>
      rw [List.find?_cons_of_pos _ hpx] at h ⊢
      exact h
    | false =>
      rw [List.find?_cons_of_neg _ (by simp [hpx])] at h ⊢
      exact ih h

theorem find?_id_map (f : UserRow → UserRow) (hid : ∀ u, (f u).id = u.id)
    (l : List UserRow) (n : Nat) :
    (l.map f).find? (fun x => x.id == n) =
      (l.find? (fun x => x.id == n)).map f := by
  induction l with
  | nil => rfl
  | cons x xs ih =>
    rw [List.map_cons, List.find?_cons, List.find?_cons]
    have hpe : ((f x).id == n) = (x.id == n) := by rw [hid]
    rw [hpe]
    cases hx : (x.id == n) with
    | true => rfl
    | false => exact ih

theorem saleCount_append (ts : List TransferRow) (t : TransferRow)
    (wid : Nat) :
    saleCount (ts ++ [t]) wid =
      saleCount ts wid +
        (if t.watchId == wid && t.type == "sale" then 1 else 0) := by
  simp only [saleCount, List.filter_append, List.length_append]
  congr 1
  by_cases h : (t.watchId == wid && t.type == "sale") = true
  · simp [List.filter, h]
  · simp [List.filter, h]

theorem saleCount_eq_zero {ts : List TransferRow} {wid : Nat}
    (h : ∀ t ∈ ts, t.watchId ≠ wid) : saleCount ts wid = 0 := by
  simp only [saleCount, List.length_eq_zero, List.filter_eq_nil_iff]
  intro t ht
  simp [h t ht]

theorem LedgerInv.of_core_eq {db db2 : DB} (inv : LedgerInv db)
    (hu : db2.users = db.users) (hw : db2.watches = db.watches)
    (ht : db2.transfers = db.transfers)
    (hn : db2.nextWatchId = db.nextWatchId) : LedgerInv db2 := by
  refine ⟨?_, ?_, ?_, ?_, ?_⟩ <;> simp only [hu, hw, ht, hn] <;>
    first
      | exact inv.watchIdsBounded
      | exact inv.transferRefsBounded
      | exact inv.saleCountLe
      | exact inv.ownerRoleUser
      | exact inv.soldHasOne

theorem LedgerInv.users_append {db : DB} (inv : LedgerInv db)
    (us : List UserRow) (k : Nat) :
    LedgerInv { db with users := db.users ++ us, nextUserId := k } := by
  refine ⟨inv.watchIdsBounded, inv.transferRefsBounded, inv.saleCountLe,
    ?_, inv.soldHasOne⟩
  intro w hw hc
  obtain ⟨u, hu, hr⟩ := inv.ownerRoleUser w hw hc
  exact ⟨u, find?_append_some us hu, hr⟩

theorem LedgerInv.users_map {db : DB} (inv : LedgerInv db)
    (f : UserRow → UserRow) (hid : ∀ u, (f u).id = u.id)
    (hrole : ∀ u, (f u).role = u.role) :
    LedgerInv { db with users := db.users.map f } := by
  refine ⟨inv.watchIdsBounded, inv.transferRefsBounded, inv.saleCountLe,
    ?_, inv.soldHasOne⟩
  intro w hw hc
  obtain ⟨u, hu, hr⟩ := inv.ownerRoleUser w hw hc
  refine ⟨f u, ?_, by rw [hrole]; exact hr⟩
  rw [find?_id_map f hid, hu]
  rfl

theorem LedgerInv.watches_map {db : DB} (inv : LedgerInv db)
    (f : WatchRow → WatchRow) (hid : ∀ w, (f w).id = w.id)
    (hown : ∀ w, (f w).currentOwnerUserId = w.currentOwnerUserId)
    (hst : ∀ w, (f w).status = w.status ∨ (f w).status ≠ "sold") :
    LedgerInv { db with watches := db.watches.map f } := by
  refine ⟨?_, inv.transferRefsBounded, ?_, ?_, ?_⟩
  · intro w hw
    obtain ⟨x, hx, rfl⟩ := List.mem_map.mp hw
    rw [hid]
    exact inv.watchIdsBounded x hx
  · intro w hw
    obtain ⟨x, hx, rfl⟩ := List.mem_map.mp hw
    rw [hid]
    exact inv.saleCountLe x hx
  · intro w hw hc
    obtain ⟨x, hx, rfl⟩ := List.mem_map.mp hw
    rw [hid] at hc
    rw [hown]
    exact inv.ownerRoleUser x hx hc
  · intro w hw hsold
    obtain ⟨x, hx, rfl⟩ := List.mem_map.mp hw
    rw [hid]
    rcases hst x with h | h
    · exact inv.soldHasOne x hx (h.symm.trans hsold)
    · exact absurd hsold h

theorem LedgerInv.watches_append {db : DB} (inv : LedgerInv db)
    {w0 : WatchRow} (hid : w0.id = db.nextWatchId)
    (hst : w0.status ≠ "sold") :
    LedgerInv { db with watches := db.watches ++ [w0],
                        nextWatchId := db.nextWatchId + 1 } := by
  have hzero : saleCount db.transfers w0.id = 0 := by
    apply saleCount_eq_zero
    intro t ht
    rw [hid]
    exact Nat.ne_of_lt (inv.transferRefsBounded t ht)
  refine ⟨?_, ?_, ?_, ?_, ?_⟩
  · intro w hw
    rcases List.mem_append.mp hw with h | h
    · exact Nat.lt_succ_of_lt (inv.watchIdsBounded w h)
    · rw [List.mem_singleton.mp h, hid]
      exact Nat.lt_succ_self _
  · intro t ht
    exact Nat.lt_succ_of_lt (inv.transferRefsBounded t ht)
  · intro w hw
    rcases List.mem_append.mp hw with h | h
    · exact inv.saleCountLe w h
    · rw [List.mem_singleton.mp h, hzero]
      exact Nat.zero_le 1
  · intro w hw hc
    rcases List.mem_append.mp hw with h | h
    · exact inv.ownerRoleUser w h hc
    · rw [List.mem_singleton.mp h, hzero] at hc
      exact absurd hc (by norm_num)
  · intro w hw hs
    rcases List.mem_append.mp hw with h | h
    · exact inv.soldHasOne w h hs
    · rw [List.mem_singleton.mp h] at hs
      exact absurd hs hst

theorem soldUpdate_id (i b : Nat) (x : WatchRow) :
    (soldUpdate i b x).id = x.id := by
  unfold soldUpdate
  split <;> rfl

theorem soldUpdate_of_eq {i b : Nat} {x : WatchRow} (h : x.id = i) :
    soldUpdate i b x = { x with currentOwnerUserId := b, status := "sold" } := by
  unfold soldUpdate
  simp [h]

theorem soldUpdate_of_ne {i b : Nat} {x : WatchRow} (h : ¬ x.id = i) :
    soldUpdate i b x = x := by
  unfold soldUpdate
  simp [h]

/-- Preservation of the ledger invariant by the shape of a sale commit: one
watch row flips to the buyer and `sold`, one `sale` transfer referencing it
is appended, provided no `sale` transfer referenced it before and the buyer
is a role-`user` row. -/
theorem ledgerInv_sale_commit {db : DB} (inv : LedgerInv db)
    {watch : WatchRow} {c : Nat} (hmem : watch ∈ db.watches)
    (hzero : saleCount db.transfers watch.id = 0)
    (hbuyer : ∃ u, db.users.find? (fun x => x.id == c) = some u ∧
      u.role = "user")
    (t2 : TransferRow) (htw : t2.watchId = watch.id)
    (htty : t2.type = "sale") (cm : CommissionRow) (k : Nat) :
    LedgerInv { db with
      watches := db.watches.map (soldUpdate watch.id c)
      transfers := db.transfers ++ [t2]
      commissions := db.commissions ++ [cm]
      nextTransferId := k } := by
  have hcount : ∀ n : Nat, saleCount (db.transfers ++ [t2]) n =
      saleCount db.transfers n + (if watch.id = n then 1 else 0) := by
    intro n
    rw [saleCount_append]
    congr 1
    rw [htw, htty]
    by_cases h : watch.id = n
    · simp [h]
    · simp [h]
  refine ⟨?_, ?_, ?_, ?_, ?_⟩
  · intro w hw
    obtain ⟨x, hx, rfl⟩ := List.mem_map.mp hw
    rw [soldUpdate_id]
    exact inv.watchIdsBounded x hx
  · intro t ht
    rcases List.mem_append.mp ht with h | h
    · exact inv.transferRefsBounded t h
    · rw [List.mem_singleton.mp h, htw]
      exact inv.watchIdsBounded watch hmem
  · intro w hw
    obtain ⟨x, hx, rfl⟩ := List.mem_map.mp hw
    rw [soldUpdate_id, hcount]
    by_cases hxe : watch.id = x.id
    · rw [← hxe, hzero]
      simp
    · have := inv.saleCountLe x hx
      simp [hxe]
      omega
  · intro w hw hc
    obtain ⟨x, hx, rfl⟩ := List.mem_map.mp hw
    rw [soldUpdate_id, hcount] at hc
    by_cases hxe : x.id = watch.id
    · rw [soldUpdate_of_eq hxe]
      exact hbuyer
    · rw [soldUpdate_of_ne hxe]
      rw [if_neg (fun h => hxe h.symm)] at hc
      exact inv.ownerRoleUser x hx (by omega)
  · intro w hw hs
    obtain ⟨x, hx, rfl⟩ := List.mem_map.mp hw
    rw [soldUpdate_id, hcount]
    by_cases hxe : x.id = watch.id
    · rw [hxe, hzero]
      simp [hxe]
    · rw [soldUpdate_of_ne hxe] at hs
      rw [if_neg (fun h => hxe h.symm)]
      rw [inv.soldHasOne x hx hs]

/-- Inversion of a successful `purchase_watch`: the preconditions the
handler checked and the exact committed state. -/
theorem purchase_watch_ok {c : Nat} {role : String} {wid : Nat}
    {p : PurchasePayload} {pay : PaymentOutcome} {nft : NftTransferOutcome}
    {db d : DB}
    (h : purchase_watch c role wid p pay nft db = .ok d) :
    role = "user" ∧
    ∃ watch owner tx,
      db.watches.find? (fun w => w.id == wid && w.status == "for_sale") =
        some watch ∧
      db.users.find? (fun u => u.id == watch.currentOwnerUserId) =
        some owner ∧
      owner.role = "store" ∧ (watch.currentOwnerUserId == c) = false ∧
      d = purchaseCommit db watch c tx := by
  unfold purchase_watch at h
  split at h
  · exact absurd h (by simp)
  next hrole =>
  split at h
  · exact absurd h (by simp)
  next watch hwatch =>
  split at h
  · exact absurd h (by simp)
  next owner howner =>
  split at h
  · exact absurd h (by simp)
  next hstore =>
  split at h
  · exact absurd h (by simp)
  next hself =>
  split at h
  · exact absurd h (by simp)
  next _hfields =>
  split at h
  · exact absurd h (by simp)
  next payStatus payTx =>
  split at h
  · split at h
    next _buyer _seller _hbe _hse =>
      split at h
      next s2 t2 =>
        simp only [] at h
        split at h
        · injection h with h2
          refine ⟨not_not.mp hrole, watch, owner, t2, hwatch, howner,
            not_not.mp hstore, ?_, h2.symm⟩
          cases hb : (watch.currentOwnerUserId == c) with
          | false => rfl
          | true => exact absurd hb hself
        · exact absurd h (by simp)
      next =>
        simp only [] at h
        split at h
        · injection h with h2
          refine ⟨not_not.mp hrole, watch, owner, _, hwatch, howner,
            not_not.mp hstore, ?_, h2.symm⟩
          cases hb : (watch.currentOwnerUserId == c) with
          | false => rfl
          | true => exact absurd hb hself
        · exact absurd h (by simp)
    all_goals exact absurd h (by simp)
  · exact absurd h (by simp)

theorem tokenizeStep_eq_self (r : String) (w : Nat) (db : DB) :
    tokenizeStep r w db = db := by
  unfold tokenizeStep
  split
  next d hd =>
    unfold tokenize_watch at hd
    split at hd
    · exact absurd hd (by simp)
    · split at hd <;> exact absurd hd (by simp)
  next => rfl

theorem ledgerInv_empty : LedgerInv DB.empty := by
  refine ⟨?_, ?_, ?_, ?_, ?_⟩ <;> intro x hx <;>
    exact absurd hx (List.not_mem_nil x)

theorem roleOf_eq {db : DB} {c : Nat} {r : String} (h : roleOf db c = r)
    (hr : r ≠ "") :
    ∃ u, db.users.find? (fun x => x.id == c) = some u ∧ u.role = r := by
  unfold roleOf at h
  cases hfind : db.users.find? (fun x => x.id == c) with
  | none =>
    rw [hfind] at h
    exact absurd h.symm hr
  | some u =>
    rw [hfind] at h
    exact ⟨u, rfl, h⟩

theorem ledgerInv_forSaleUpdate {db : DB} (inv : LedgerInv db) (i : Nat) :
    LedgerInv { db with watches := db.watches.map (forSaleUpdate i) } := by
  refine inv.watches_map _ ?_ ?_ ?_ <;> intro x <;> unfold forSaleUpdate
  · split <;> rfl
  · split <;> rfl
  · split
    · exact Or.inr (by simp)
    · exact Or.inl rfl

theorem ledgerInv_forSalePriceUpdate {db : DB} (inv : LedgerInv db) (i : Nat)
    (np : Option Rat) :
    LedgerInv { db with watches := db.watches.map (forSalePriceUpdate i np) } := by
  refine inv.watches_map _ ?_ ?_ ?_ <;> intro x <;> unfold forSalePriceUpdate
  · split <;> rfl
  · split <;> rfl
  · split
    · exact Or.inr (by simp)
    · exact Or.inl rfl

theorem ledgerInv_nftFieldsUpdate {db : DB} (inv : LedgerInv db) (i : Nat)
    (code issuer : String) :
    LedgerInv { db with
      watches := db.watches.map (nftFieldsUpdate i code issuer) } := by
  refine inv.watches_map _ ?_ ?_ ?_ <;> intro x <;> unfold nftFieldsUpdate
  · split <;> rfl
  · split <;> rfl
  · exact Or.inl (by split <;> rfl)

theorem ledgerInv_purchaseCommit {db : DB} (inv : LedgerInv db)
    {watch : WatchRow} {owner : UserRow} {c wid : Nat} (tx : String)
    (hfind : db.watches.find? (fun w => w.id == wid && w.status == "for_sale")
      = some watch)
    (howner : db.users.find? (fun u => u.id == watch.currentOwnerUserId)
      = some owner)
    (hstore : owner.role = "store")
    (hbuyer : ∃ u, db.users.find? (fun x => x.id == c) = some u ∧
      u.role = "user") :
    LedgerInv (purchaseCommit db watch c tx) := by
  have hmem : watch ∈ db.watches := List.mem_of_find?_eq_some hfind
  have hzero : saleCount db.transfers watch.id = 0 := by
    rcases Nat.eq_zero_or_pos (saleCount db.transfers watch.id) with h0 | hpos
    · exact h0
    · obtain ⟨u, hu, hr⟩ := inv.ownerRoleUser watch hmem hpos
      rw [hu] at howner
      injection howner with h2
      subst h2
      exact absurd (hr.symm.trans hstore) (by decide)
  exact ledgerInv_sale_commit inv hmem hzero hbuyer _ rfl rfl _ _

/-- Every public operation preserves the ledger invariant. -/
theorem ledgerInv_step {db : DB} (inv : LedgerInv db) (op : Op) :
    LedgerInv (step db op) := by
  cases op with
  | register f e r pk sk =>
    simp only [step]
    cases hreg : register f e r pk sk db with
    | error _ => exact inv
    | ok d =>
      show LedgerInv d
      unfold register at hreg
      split at hreg
      · exact absurd hreg (by simp)
      · injection hreg with h2
        rw [← h2]
        exact inv.users_append _ _
  | profileRead c =>
    show LedgerInv (get_user_profile c db)
    unfold get_user_profile
    refine inv.users_map _ ?_ ?_ <;> intro u <;> unfold profileBalanceUpdate <;>
      (repeat' split) <;> rfl
  | createStore c pl =>
    simp only [step]
    cases hcs : create_store (roleOf db c) pl db with
    | error _ => exact inv
    | ok d =>
      show LedgerInv d
      unfold create_store at hcs
      repeat' split at hcs
      all_goals first
        | exact Except.noConfusion hcs
        | (injection hcs with h2; rw [← h2];
           exact inv.of_core_eq rfl rfl rfl rfl)
  | createEvaluator c pl =>
    simp only [step]
    cases hce : create_evaluator (roleOf db c) pl db with
    | error _ => exact inv
    | ok d =>
      show LedgerInv d
      unfold create_evaluator at hce
      repeat' split at hce
      all_goals first
        | exact Except.noConfusion hce
        | (injection hce with h2; rw [← h2];
           exact inv.of_core_eq rfl rfl rfl rfl)
  | createWatch c w =>
    simp only [step]
    cases hcw : create_watch c (roleOf db c) w db with
    | error _ => exact inv
    | ok d =>
      show LedgerInv d
      unfold create_watch at hcw
      simp only [] at hcw
      repeat' split at hcw
      all_goals first
        | exact Except.noConfusion hcw
        | (injection hcw with h2; rw [← h2];
           exact inv.watches_append rfl (by simp))
  | uploadWatch c s b m de o i n =>
    show LedgerInv (create_watch_with_image c (roleOf db c) s b m de o i n db).1
    unfold create_watch_with_image
    simp only []
    repeat' split
    all_goals first
      | exact inv
      | exact inv.watches_append rfl (by simp)
      | exact ledgerInv_nftFieldsUpdate (inv.watches_append rfl (by simp)) _ _ _
  | listForSale c w =>
    simp only [step]
    cases hls : list_for_sale c (roleOf db c) w db with
    | error _ => exact inv
    | ok d =>
      show LedgerInv d
      unfold list_for_sale at hls
      repeat' split at hls
      all_goals first
        | exact Except.noConfusion hls
        | (injection hls with h2; rw [← h2];
           exact ledgerInv_forSaleUpdate inv _)
  | sellWatch c w pr =>
    simp only [step]
    cases hsw : put_watch_for_sale c (roleOf db c) w pr db with
    | error _ => exact inv
    | ok d =>
      show LedgerInv d
      unfold put_watch_for_sale at hsw
      simp only [] at hsw
      repeat' split at hsw
      all_goals first
        | exact Except.noConfusion hsw
        | (injection hsw with h2; rw [← h2];
           exact ledgerInv_forSalePriceUpdate inv _ _)
  | purchase c w p pay nft =>
    show LedgerInv (purchaseStep c (roleOf db c) w p pay nft db)
    unfold purchaseStep
    cases hp : purchase_watch c (roleOf db c) w p pay nft db with
    | error _ => exact inv
    | ok d =>
      show LedgerInv d
      obtain ⟨hrole, watch, owner, tx, hw, ho, hs, _hself, hd⟩ :=
        purchase_watch_ok hp
      rw [hd]
      exact ledgerInv_purchaseCommit inv tx hw ho hs
        (roleOf_eq hrole (by decide))
  | tokenize c w =>
    show LedgerInv (tokenizeStep (roleOf db c) w db)
    rw [tokenizeStep_eq_self]
    exact inv
  | confirmDelivery c eid =>
    simp only [step]
    split
    · exact inv.of_core_eq rfl rfl rfl rfl
    · exact inv

/-- The ledger invariant holds in every reachable state. -/
theorem ledgerInv_reachable {db : DB} (h : Reachable db) : LedgerInv db := by
  induction h with
  | init => exact ledgerInv_empty
  | next db op _ ih => exact ledgerInv_step ih op

theorem reachable_stepAll {db : DB} (h : Reachable db) (ops : List Op) :
    Reachable (stepAll db ops) := by
  induction ops generalizing db with
  | nil => exact h
  | cons o os ih => exact ih (Reachable.next db o h)

theorem confirmFlagsUpdate_status (ct : String) (e : EscrowRow) :
    (confirmFlagsUpdate ct e).status = e.status := by
  unfold confirmFlagsUpdate
  repeat' split
  all_goals rfl

/-- Behaviour of the modelled escrow contract on a pending escrow: the
result is `released` exactly when both flags are then true, and stays
`pending` otherwise. -/
theorem escrowConfirm_pending_spec (ct : String) {e : EscrowRow}
    (hpend : e.status = "pending") :
    ((escrowConfirmDelivery ct e).status = "released" ↔
      ((escrowConfirmDelivery ct e).sellerConfirmed = true ∧
       (escrowConfirmDelivery ct e).evaluatorConfirmed = true)) ∧
    (¬((escrowConfirmDelivery ct e).sellerConfirmed = true ∧
       (escrowConfirmDelivery ct e).evaluatorConfirmed = true) →
      (escrowConfirmDelivery ct e).status = "pending") := by
  unfold escrowConfirmDelivery
  rw [if_neg (not_not_intro hpend)]
  simp only []
  split
  next hboth =>
    rw [Bool.and_eq_true] at hboth
    obtain ⟨h1, h2⟩ := hboth
    refine ⟨⟨fun _ => ⟨h1, h2⟩, fun _ => rfl⟩, fun hcon => absurd ⟨h1, h2⟩ hcon⟩
  next hnboth =>
    rw [Bool.and_eq_true] at hnboth
    refine ⟨⟨fun hrel => ?_, fun hb => ?_⟩, fun _ => ?_⟩
    · rw [confirmFlagsUpdate_status, hpend] at hrel
      exact absurd hrel (by decide)
    · exact absurd hb hnboth
    · rw [confirmFlagsUpdate_status]
      exact hpend

end Marketplace

namespace Marketplace

/-- C3: in every state reachable through the public operations (the
ledger-writing handlers under src/ — routers `auth`, `admin`, `watches` —
plus the spec-modelled escrow confirmation; the stellar-router registration
and NFT-transfer endpoints delegate their writes to the absent
`app/stellar_contracts.py` and are outside this relation), every watch whose
status is `"sold"` is referenced by exactly one OwnershipTransfer row of
type `"sale"`. -/
theorem sold_watch_has_one_sale_transfer {db : DB} (h : Reachable db) :
    ∀ w ∈ db.watches, w.status = "sold" →
      saleCount db.transfers w.id = 1 :=
  (ledgerInv_reachable h).soldHasOne

theorem sold_watch_has_one_sale_transfer_witness :
    saleCount saleScenarioDB.transfers saleScenarioWatch.id = 1 :=
  sold_watch_has_one_sale_transfer
    (reachable_stepAll Reachable.init saleScenarioOps)
    saleScenarioWatch (by decide) (by decide)

/-- C5: a `confirm_delivery` call on a pending escrow releases it exactly
when both the seller-confirmed and evaluator-confirmed flags are then true;
when they are not both true the escrow stays pending (in particular, a call
that leaves only one flag set does not release).  The contract body is
modelled from the spec (`app/stellar_contracts.py` is not under src/); the
role-to-confirmer mapping is from stellar_contracts.py lines 195-226. -/
theorem escrow_release_requires_both_confirmations (callerRole : String)
    (e e2 : EscrowRow) (hpend : e.status = "pending")
    (hconf : confirm_delivery callerRole e = .ok e2) :
    ((e2.status = "released") ↔
      (e2.sellerConfirmed = true ∧ e2.evaluatorConfirmed = true)) ∧
    (¬(e2.sellerConfirmed = true ∧ e2.evaluatorConfirmed = true) →
      e2.status = "pending") := by
  unfold confirm_delivery at hconf
  split at hconf
  · injection hconf with h2
    rw [← h2]
    exact escrowConfirm_pending_spec "seller" hpend
  · split at hconf
    · injection hconf with h2
      rw [← h2]
      exact escrowConfirm_pending_spec "evaluator" hpend
    · exact Except.noConfusion hconf

theorem escrow_release_requires_both_confirmations_witness :
    ((escrowSellerConfirmed.status = "released") ↔
      (escrowSellerConfirmed.sellerConfirmed = true ∧
       escrowSellerConfirmed.evaluatorConfirmed = true)) ∧
    (¬(escrowSellerConfirmed.sellerConfirmed = true ∧
       escrowSellerConfirmed.evaluatorConfirmed = true) →
      escrowSellerConfirmed.status = "pending") :=
  escrow_release_requires_both_confirmations "user" escrowSellerConfirmed
    escrowSellerConfirmed rfl rfl

/-- C7 counterexample: purchasing the sold watch of `testDBsold` fails with
the single 404 "not available" error of watches.py line 347 — the error the
spec's own §4.1 classifies as the not-found error — not with a distinct
`ConflictState`. -/
theorem purchase_not_for_sale_counterexample :
    purchase_watch 2 "user" 10 pixPayload (.returns "success" "p")
        (.returns "success" "n") testDBsold
      = .error .watchNotAvailable ∧
    purchaseErrorKind .watchNotAvailable = .notFound ∧
    purchaseErrorKind .watchNotAvailable ≠ .conflictState :=
  ⟨rfl, rfl, by decide⟩

/-- C7 (amended): a purchase call on a watch that is missing or not
`for_sale` always fails — with the 404 not-available error (`NotFound` in
the spec's taxonomy) for role-`user` callers, and at the role gate for any
other role — and the state is unchanged. -/
theorem purchase_not_for_sale_always_fails (c : Nat) (role : String)
    (wid : Nat) (p : PurchasePayload) (pay : PaymentOutcome)
    (nft : NftTransferOutcome) (db : DB)
    (h : db.watches.find? (fun w => w.id == wid && w.status == "for_sale")
      = none) :
    purchase_watch c role wid p pay nft db =
      .error (if role = "user" then .watchNotAvailable else .forbidden) ∧
    purchaseStep c role wid p pay nft db = db := by
  have h1 : purchase_watch c role wid p pay nft db =
      .error (if role = "user" then .watchNotAvailable else .forbidden) := by
    unfold purchase_watch
    by_cases hr : role = "user"
    · rw [if_neg (not_not_intro hr), if_pos hr]
      simp only [h]
    · rw [if_pos hr, if_neg hr]
  refine ⟨h1, ?_⟩
  unfold purchaseStep
  rw [h1]

theorem purchase_not_for_sale_always_fails_witness :
    purchase_watch 2 "user" 10 pixPayload (.returns "success" "p")
        (.returns "success" "n") testDBsold =
      .error (if "user" = "user" then .watchNotAvailable else .forbidden) ∧
    purchaseStep 2 "user" 10 pixPayload (.returns "success" "p")
        (.returns "success" "n") testDBsold = testDBsold :=
  purchase_not_for_sale_always_fails 2 "user" 10 pixPayload
    (.returns "success" "p") (.returns "success" "n") testDBsold rfl

/-- C8: a purchase call in which the caller owns every watch carrying the
requested id is rejected (for every caller role, payment method, adapter
outcome and watch status — either at the role gate, the availability check,
the store check, or the explicit self-purchase check of line 355) and the
state is unchanged. -/
theorem self_purchase_rejected (c : Nat) (role : String) (wid : Nat)
    (p : PurchasePayload) (pay : PaymentOutcome) (nft : NftTransferOutcome)
    (db : DB)
    (hown : ∀ x ∈ db.watches, x.id = wid → x.currentOwnerUserId = c) :
    isError (purchase_watch c role wid p pay nft db) = true ∧
    purchaseStep c role wid p pay nft db = db := by
  have hne : ∀ d, purchase_watch c role wid p pay nft db ≠ .ok d := by
    intro d hok
    obtain ⟨_, watch, owner, tx, hw, ho, hs, hself, _⟩ := purchase_watch_ok hok
    have hpred := List.find?_some hw
    have hmem := List.mem_of_find?_eq_some hw
    rw [Bool.and_eq_true, beq_iff_eq] at hpred
    rw [hown watch hmem hpred.1] at hself
    simp at hself
  cases hres : purchase_watch c role wid p pay nft db with
  | ok d => exact absurd hres (hne d)
  | error e =>
    refine ⟨rfl, ?_⟩
    unfold purchaseStep
    rw [hres]

theorem self_purchase_rejected_witness :
    isError (purchase_watch 2 "user" 10 pixPayload (.returns "success" "p")
      (.returns "success" "n") testDBself) = true ∧
    purchaseStep 2 "user" 10 pixPayload (.returns "success" "p")
      (.returns "success" "n") testDBself = testDBself :=
  self_purchase_rejected 2 "user" 10 pixPayload (.returns "success" "p")
    (.returns "success" "n") testDBself (by decide)

/-- C10: a tokenize request never modifies the database (in particular no
watch ever reaches `"tokenized"`, `"nft_error"` or `"nft_failed"` through
it), and whenever the caller passes the evaluator role gate and the watch
exists, the handler dies with the `NameError` on `Evaluator` at watches.py
line 108 (the model-scope imports of line 10 do not include `Evaluator`). -/
theorem tokenize_never_modifies_state (callerRole : String) (wid : Nat)
    (db : DB) :
    tokenizeStep callerRole wid db = db ∧
    (callerRole = "evaluator" →
      (db.watches.find? (fun w => w.id == wid)).isSome = true →
      tokenize_watch callerRole wid db = .error .nameErrorEvaluator) := by
  refine ⟨tokenizeStep_eq_self callerRole wid db, ?_⟩
  intro hrole hex
  obtain ⟨w, hw⟩ := Option.isSome_iff_exists.mp hex
  unfold tokenize_watch
  rw [if_neg (not_not_intro hrole)]
  simp only [hw]

theorem tokenize_never_modifies_state_witness :
    tokenizeStep "evaluator" 10 testDB = testDB ∧
    tokenize_watch "evaluator" 10 testDB = .error .nameErrorEvaluator :=
  ⟨(tokenize_never_modifies_state "evaluator" 10 testDB).1,
   (tokenize_never_modifies_state "evaluator" 10 testDB).2 rfl (by decide)⟩

/-- C1: a purchase call on an existing `for_sale` watch owned by a
role-`store` user, with a distinct existing buyer, passing payment
validation, the payment adapter reporting success and the token transfer
resolving successfully, commits in one state transition: exactly one new
OwnershipTransfer row of type `"sale"` with the resolved price and an admin
fee of price × 3/100, the watch handed to the buyer with status `"sold"`,
and exactly one new Commission row whose amount equals that fee. -/
theorem purchase_success_commits_sale (c wid : Nat) (p : PurchasePayload)
    (payTx nftTx : String) (db : DB) (watch : WatchRow) (owner : UserRow)
    (hw : db.watches.find? (fun w => w.id == wid && w.status == "for_sale")
      = some watch)
    (ho : db.users.find? (fun u => u.id == watch.currentOwnerUserId)
      = some owner)
    (hrole : owner.role = "store")
    (hself : watch.currentOwnerUserId ≠ c)
    (hval : paymentFieldsOk p = true)
    (hbuyer : (db.users.find? (fun u => u.id == c)).isSome = true) :
    purchase_watch c "user" wid p (.returns "success" payTx)
        (.returns "success" nftTx) db
      = .ok { db with
          watches := db.watches.map (soldUpdate watch.id c)
          transfers := db.transfers ++
            [{ id := some db.nextTransferId, watchId := watch.id,
               fromUserId := watch.currentOwnerUserId, toUserId := c,
               stellarTxHash := nftTx, type := "sale",
               priceBrl := resolvePrice watch,
               adminFeeBrl := resolvePrice watch * (3 / 100) }]
          commissions := db.commissions ++
            [{ transactionId := none, transactionType := "sale",
               recipientUserId := 1,
               amountBrl := resolvePrice watch * (3 / 100),
               description := "Comissão da venda do relógio " ++ watch.brand
                                ++ " " ++ watch.model }]
          nextTransferId := db.nextTransferId + 1 } := by
  obtain ⟨buyer, hb⟩ := Option.isSome_iff_exists.mp hbuyer
  have hselfP : ¬((watch.currentOwnerUserId == c) = true) := by simp [hself]
  unfold purchase_watch
  rw [if_neg (not_not_intro rfl)]
  simp only [hw, ho]
  rw [if_neg (not_not_intro hrole), if_neg hselfP,
      if_neg (not_not_intro hval), if_pos (by decide : ("success" == "success") = true)]
  simp only [hb, ho]
  rw [if_pos (by decide : ("success" == "success") = true)]
  unfold purchaseCommit
  rfl

theorem purchase_success_commits_sale_witness :
    purchase_watch 2 "user" 10 pixPayload (.returns "success" "pay1")
        (.returns "success" "nft1") testDB
      = .ok { testDB with
          watches := testDB.watches.map (soldUpdate testWatch.id 2)
          transfers := testDB.transfers ++
            [{ id := some testDB.nextTransferId, watchId := testWatch.id,
               fromUserId := testWatch.currentOwnerUserId, toUserId := 2,
               stellarTxHash := "nft1", type := "sale",
               priceBrl := resolvePrice testWatch,
               adminFeeBrl := resolvePrice testWatch * (3 / 100) }]
          commissions := testDB.commissions ++
            [{ transactionId := none, transactionType := "sale",
               recipientUserId := 1,
               amountBrl := resolvePrice testWatch * (3 / 100),
               description := "Comissão da venda do relógio "
                                ++ testWatch.brand ++ " " ++ testWatch.model }]
          nextTransferId := testDB.nextTransferId + 1 } :=
  purchase_success_commits_sale 2 10 pixPayload "pay1" "nft1" testDB
    testWatch testStore rfl rfl rfl (by decide) rfl rfl

/-- C2: when the watch is available from a store and the buyer is distinct
and the payment fields validate, a non-success status from the payment
adapter makes the purchase fail with the payment-failed error (watches.py
line 471, 400 "Falha no pagamento") and leaves the state unchanged: the
watch keeps its status and owner and no OwnershipTransfer or Commission row
is inserted. -/
theorem purchase_payment_failure_no_state_change (c wid : Nat)
    (p : PurchasePayload) (st tx : String) (nft : NftTransferOutcome)
    (db : DB) (watch : WatchRow) (owner : UserRow)
    (hw : db.watches.find? (fun w => w.id == wid && w.status == "for_sale")
      = some watch)
    (ho : db.users.find? (fun u => u.id == watch.currentOwnerUserId)
      = some owner)
    (hrole : owner.role = "store")
    (hself : watch.currentOwnerUserId ≠ c)
    (hval : paymentFieldsOk p = true)
    (hfail : st ≠ "success") :
    purchase_watch c "user" wid p (.returns st tx) nft db
      = .error .paymentFailed ∧
    purchaseStep c "user" wid p (.returns st tx) nft db = db := by
  have hselfP : ¬((watch.currentOwnerUserId == c) = true) := by simp [hself]
  have hfailP : ¬((st == "success") = true) := by simp [hfail]
  have h1 : purchase_watch c "user" wid p (.returns st tx) nft db
      = .error .paymentFailed := by
    unfold purchase_watch
    rw [if_neg (not_not_intro rfl)]
    simp only [hw, ho]
    rw [if_neg (not_not_intro hrole), if_neg hselfP,
        if_neg (not_not_intro hval), if_neg hfailP]
  exact ⟨h1, by unfold purchaseStep; rw [h1]⟩

theorem purchase_payment_failure_no_state_change_witness :
    purchase_watch 2 "user" 10 pixPayload (.returns "declined" "pay1")
        (.returns "success" "nft1") testDB = .error .paymentFailed ∧
    purchaseStep 2 "user" 10 pixPayload (.returns "declined" "pay1")
        (.returns "success" "nft1") testDB = testDB :=
  purchase_payment_failure_no_state_change 2 10 pixPayload "declined" "pay1"
    (.returns "success" "nft1") testDB testWatch testStore rfl rfl rfl
    (by decide) rfl (by decide)

/-- C6: when payment succeeds but the `transfer_nft` call raises (blockchain
adapter unreachable), the `except` branch of watches.py lines 395-399
substitutes a synthetic transaction reference and the sale completes: the
committed OwnershipTransfer carries the synthetic reference
`simulated_transfer_<watchId>_<buyerId>` and the watch becomes `"sold"`
owned by the buyer. -/
theorem purchase_blockchain_unreachable_synthetic_fallback (c wid : Nat)
    (p : PurchasePayload) (payTx : String) (db : DB) (watch : WatchRow)
    (owner : UserRow)
    (hw : db.watches.find? (fun w => w.id == wid && w.status == "for_sale")
      = some watch)
    (ho : db.users.find? (fun u => u.id == watch.currentOwnerUserId)
      = some owner)
    (hrole : owner.role = "store")
    (hself : watch.currentOwnerUserId ≠ c)
    (hval : paymentFieldsOk p = true)
    (hbuyer : (db.users.find? (fun u => u.id == c)).isSome = true) :
    purchase_watch c "user" wid p (.returns "success" payTx) .raises db
      = .ok { db with
          watches := db.watches.map (soldUpdate watch.id c)
          transfers := db.transfers ++
            [{ id := some db.nextTransferId, watchId := watch.id,
               fromUserId := watch.currentOwnerUserId, toUserId := c,
               stellarTxHash := "simulated_transfer_" ++ toString watch.id
                                  ++ "_" ++ toString c,
               type := "sale", priceBrl := resolvePrice watch,
               adminFeeBrl := resolvePrice watch * (3 / 100) }]
          commissions := db.commissions ++
            [{ transactionId := none, transactionType := "sale",
               recipientUserId := 1,
               amountBrl := resolvePrice watch * (3 / 100),
               description := "Comissão da venda do relógio " ++ watch.brand
                                ++ " " ++ watch.model }]
          nextTransferId := db.nextTransferId + 1 } := by
  obtain ⟨buyer, hb⟩ := Option.isSome_iff_exists.mp hbuyer
  have hselfP : ¬((watch.currentOwnerUserId == c) = true) := by simp [hself]
  unfold purchase_watch
  rw [if_neg (not_not_intro rfl)]
  simp only [hw, ho]
  rw [if_neg (not_not_intro hrole), if_neg hselfP,
      if_neg (not_not_intro hval), if_pos (by decide : ("success" == "success") = true)]
  simp only [hb, ho]
  rw [if_pos (by decide : ("success" == "success") = true)]
  unfold purchaseCommit
  rfl

theorem purchase_blockchain_unreachable_synthetic_fallback_witness :
    purchase_watch 2 "user" 10 pixPayload (.returns "success" "pay1")
        .raises testDB
      = .ok { testDB with
          watches := testDB.watches.map (soldUpdate testWatch.id 2)
          transfers := testDB.transfers ++
            [{ id := some testDB.nextTransferId, watchId := testWatch.id,
               fromUserId := testWatch.currentOwnerUserId, toUserId := 2,
               stellarTxHash := "simulated_transfer_" ++ toString testWatch.id
                                  ++ "_" ++ toString 2,
               type := "sale", priceBrl := resolvePrice testWatch,
               adminFeeBrl := resolvePrice testWatch * (3 / 100) }]
          commissions := testDB.commissions ++
            [{ transactionId := none, transactionType := "sale",
               recipientUserId := 1,
               amountBrl := resolvePrice testWatch * (3 / 100),
               description := "Comissão da venda do relógio "
                                ++ testWatch.brand ++ " " ++ testWatch.model }]
          nextTransferId := testDB.nextTransferId + 1 } :=
  purchase_blockchain_unreachable_synthetic_fallback 2 10 pixPayload "pay1"
    testDB testWatch testStore rfl rfl rfl (by decide) rfl rfl

/-- C4 (behaviour at the failing input): in the completed purchase on
`testDB`, the single inserted Commission row carries
`transaction_id = None` — watches.py line 420 reads `transfer.id` while the
transfer is pending and unflushed — although the committed transfer row's
own primary key is 1.  The commission therefore does not reference the
OwnershipTransfer inserted in the same unit of work. -/
theorem commission_transaction_id_is_null :
    (purchaseStep 2 "user" 10 pixPayload (.returns "success" "pay1")
        (.returns "success" "nft1") testDB).commissions.map
      (fun cm => cm.transactionId) = [none] ∧
    (purchaseStep 2 "user" 10 pixPayload (.returns "success" "pay1")
        (.returns "success" "nft1") testDB).transfers.map
      (fun t => t.id) = [some 1] :=
  ⟨rfl, rfl⟩

/-- C9 (behaviour at the failing input): tokenizing the already-tokenized
watch of `testDBtokenized` does leave the token fields and status unchanged,
but it fails with the unhandled `NameError` of line 108 (surfaced as a 500),
not with the intended `InvalidRequest`/`ConflictState` 400 of lines 113-114,
which is unreachable dead code. -/
theorem tokenize_already_tokenized_name_error :
    testWatchTokenized.status = "tokenized" ∧
    tokenize_watch "evaluator" 10 testDBtokenized
      = .error .nameErrorEvaluator ∧
    tokenizeStep "evaluator" 10 testDBtokenized = testDBtokenized :=
  ⟨rfl, rfl, rfl⟩

end Marketplace
